import Mathlib

/-!
# EduFlow enrollment / submission consistency — verification development

Shallow embedding of the invariant-bearing core of the EduFlow LMS
(`src/server/storage.ts`, `src/server/routes.ts`, schema in the shared
schema module).  Tables are lists of rows, `serial` ids are modelled by a
fresh-id function, and each storage method is translated clause by clause.

A central modelling point: the source builds queries with drizzle-orm and
chains `.where(c₁).where(c₂)` in several places.  drizzle's `.where` is a
setter (`this.config.where = where`), so in such a chain only the *last*
condition is in effect at runtime.  `dzWhere` records this semantics and is
used wherever the source chains `.where` calls.
-/

namespace EduFlow

/-- JSON-ish field value, for modelling HTTP response bodies as key/value lists. -/
inductive JsonValue where
  | s (v : String)
  | n (v : Int)
  | nul
deriving DecidableEq, Repr

/-- Row of the `users` table (schema: id, username, password, role, name, avatar). -/
structure User where
  id : Nat
  username : String
  password : String
  role : String
  name : String
  avatar : Option String
deriving DecidableEq, Repr

/-- Row of the `courses` table (schema: id, title, description, teacherId, status,
enrollmentCount, thumbnail). -/
structure Course where
  id : Nat
  title : String
  description : Option String
  teacherId : Nat
  status : String
  enrollmentCount : Int
  thumbnail : Option String
deriving DecidableEq, Repr

/-- Row of the `assignments` table (schema: id, title, description, courseId,
teacherId, dueDate, maxPoints, instructions). -/
structure Assignment where
  id : Nat
  title : String
  description : Option String
  courseId : Nat
  teacherId : Nat
  dueDate : Option String
  maxPoints : Int
  instructions : Option String
deriving DecidableEq, Repr

/-- Row of the `submissions` table (schema: id, assignmentId, studentId, content,
submittedAt, grade, feedback, status). -/
structure Submission where
  id : Nat
  assignmentId : Nat
  studentId : Nat
  content : Option String
  submittedAt : Option String
  grade : Option Int
  feedback : Option String
  status : String
deriving DecidableEq, Repr

/-- Row of the `enrollments` table (schema: id, studentId, courseId, enrolledAt,
progress). -/
structure Enrollment where
  id : Nat
  studentId : Nat
  courseId : Nat
  enrolledAt : Option String
  progress : Int
deriving DecidableEq, Repr

/-- The persistence store: one list per table (content table omitted — no
claim touches it). -/
structure DB where
  users : List User
  courses : List Course
  assignments : List Assignment
  submissions : List Submission
  enrollments : List Enrollment
deriving DecidableEq, Repr

/-- drizzle-orm `.where` chaining: each call assigns `config.where`, so of a
chain `.where(c₁)…(cₙ)` only the last condition is applied to the query. -/
def dzWhere {α : Type} (conds : List (α → Bool)) : α → Bool :=
  fun r => match conds.getLast? with
  | some c => c r
  | none => true

/-- Semantics of `const [x] = await db.select().from(t).where(p)` — the first matching row. -/
def firstWhere {α : Type} (p : α → Bool) (l : List α) : Option α :=
  (l.filter p).head?

/-- Fresh `serial` id for an insert: one more than the largest id present. -/
def freshId (ids : List Nat) : Nat := ids.foldl Nat.max 0 + 1

/-- JS `v || 0` on an integer column value: `0` is falsy, so this is the
identity on integers (kept to mirror `(course.enrollmentCount || 0) + 1`). -/
def jsOr0 (v : Int) : Int := if v == 0 then 0 else v

/-- storage.getUser -/
def getUser (db : DB) (id : Nat) : Option User :=
  firstWhere (fun u => u.id == id) db.users

/-- storage.getUserByUsername -/
def getUserByUsername (db : DB) (username : String) : Option User :=
  firstWhere (fun u => u.username == username) db.users

/-- storage.getCourse -/
def getCourse (db : DB) (id : Nat) : Option Course :=
  firstWhere (fun c => c.id == id) db.courses

/-- storage.getAssignment -/
def getAssignment (db : DB) (id : Nat) : Option Assignment :=
  firstWhere (fun a => a.id == id) db.assignments

/-- storage.getEnrollmentsByStudent -/
def getEnrollmentsByStudent (db : DB) (studentId : Nat) : List Enrollment :=
  db.enrollments.filter (fun e => e.studentId == studentId)

/-- storage.enrollStudentInCourse (storage.ts 305–353).  Runs in one
transaction: course lookup, active check, already-enrolled check (a chained
`.where(studentId).where(courseId)`, hence effectively a courseId-only
filter), insert, counter increment with `.returning()` guard.  `now` is the
`new Date()` timestamp of the call. -/
def enrollStudentInCourse (now : String) (db : DB) (studentId courseId : Nat) :
    Except String Enrollment × DB :=
  match firstWhere (dzWhere [fun c => c.id == courseId]) db.courses with
  | none => (.error "Course not found.", db)
  | some course =>
    if course.status != "active" then
      (.error "Course is not active and cannot be enrolled in.", db)
    else
      match firstWhere
          (dzWhere [fun e => e.studentId == studentId, fun e => e.courseId == courseId])
          db.enrollments with
      | some _ => (.error "Student is already enrolled in this course.", db)
      | none =>
        let newEnrollment : Enrollment :=
          { id := freshId (db.enrollments.map (·.id)), studentId, courseId,
            enrolledAt := some now, progress := 0 }
        let db1 : DB := { db with enrollments := db.enrollments ++ [newEnrollment] }
        let newCourses :=
          db1.courses.map (fun c =>
            if c.id == courseId then
              { c with enrollmentCount := jsOr0 course.enrollmentCount + 1 }
            else c)
        match (newCourses.filter (fun c => c.id == courseId)).head? with
        | none => (.error "Failed to update course enrollment count.", db)
        | some _ => (.ok newEnrollment, { db1 with courses := newCourses })

/-- storage.getAvailableCoursesForStudent (storage.ts 278–303).  The
enrolled-student branch calls `and` and `notInArray`, which the file never
imports (line 22 imports only `eq` from drizzle-orm), so evaluating that
branch throws a ReferenceError at runtime instead of issuing a query. -/
def getAvailableCoursesForStudent (db : DB) (studentId : Nat) :
    Except String (List Course) :=
  let studentEnrollments := db.enrollments.filter (fun e => e.studentId == studentId)
  let enrolledCourseIds := studentEnrollments.map (fun e => e.courseId)
  if enrolledCourseIds.length == 0 then
    .ok (db.courses.filter (fun c => c.status == "active"))
  else
    .error "ReferenceError: and is not defined"

/-- The `.set({content, submittedAt, status: 'resubmitted'})` payload of the
update branch of storage.createOrUpdateSubmission (storage.ts 457–464). -/
def resubmitSet (now submissionContent : String) (s : Submission) : Submission :=
  { s with content := some submissionContent, submittedAt := some now,
           status := "resubmitted" }

/-- storage.createOrUpdateSubmission (storage.ts 428–477): assignment lookup,
course lookup, enrollment check (chained `.where(studentId).where(courseId)` —
effectively courseId-only), authoritative-row lookup (both lookups chain
`.where`, so each is effectively a studentId-only filter), then update or
insert.  `now` is the `new Date()` timestamp. -/
def createOrUpdateSubmission (now : String) (db : DB)
    (assignmentId studentId : Nat) (submissionContent : String)
    (submissionIdToUpdate : Option Nat) : Except String Submission × DB :=
  match getAssignment db assignmentId with
  | none => (.error "Assignment not found.", db)
  | some assignment =>
    match getCourse db assignment.courseId with
    | none => (.error "Course not found for this assignment.", db)
    | some _course =>
      match firstWhere
          (dzWhere [fun e => e.studentId == studentId,
                    fun e => e.courseId == assignment.courseId])
          db.enrollments with
      | none => (.error "Student not enrolled in the course for this assignment.", db)
      | some _ =>
        let existingSubmission : Option Submission :=
          match submissionIdToUpdate with
          | some sid =>
            firstWhere (dzWhere [fun s => s.id == sid,
                                 fun s => s.studentId == studentId]) db.submissions
          | none =>
            firstWhere (dzWhere [fun s => s.assignmentId == assignmentId,
                                 fun s => s.studentId == studentId]) db.submissions
        match submissionIdToUpdate, existingSubmission with
        | some _, none => (.error "Submission to update not found or access denied.", db)
        | _, some ex =>
          let newSubmissions :=
            db.submissions.map (fun s =>
              if s.id == ex.id then resubmitSet now submissionContent s else s)
          let db1 : DB := { db with submissions := newSubmissions }
          match (newSubmissions.filter (fun s => s.id == ex.id)).head? with
          | some updatedSubmission => (.ok updatedSubmission, db1)
          | none => (.error "Failed to update submission.", db1)
        | none, none =>
          let newSubmission : Submission :=
            { id := freshId (db.submissions.map (·.id)), assignmentId, studentId,
              content := some submissionContent, submittedAt := some now,
              grade := none, feedback := none, status := "submitted" }
          (.ok newSubmission, { db with submissions := db.submissions ++ [newSubmission] })

/-- Result shape of storage.getSubmissionDetails: the submission spread
together with its assignment, the owning course and (teacher calls only) the
student row. -/
structure SubmissionDetails where
  submission : Submission
  assignment : Assignment
  student : Option User
  course : Course
deriving DecidableEq, Repr

/-- storage.getSubmissionDetails (storage.ts 479–508): submission, assignment
and course lookups, then the role/ownership checks, then the optional student
fetch for teachers.  Read-only, so no state is returned. -/
def getSubmissionDetails (db : DB) (submissionId userId : Nat) (userRole : String) :
    Except String SubmissionDetails :=
  match firstWhere (fun s => s.id == submissionId) db.submissions with
  | none => .error "Submission not found."
  | some submission =>
    match getAssignment db submission.assignmentId with
    | none => .error "Assignment not found for this submission."
    | some assignment =>
      match getCourse db assignment.courseId with
      | none => .error "Course not found for this assignment."
      | some course =>
        if userRole == "student" && submission.studentId != userId then
          .error "Access denied. You are not the owner of this submission."
        else if userRole == "teacher" && course.teacherId != userId then
          .error "Access denied. You are not the teacher of this course."
        else
          let studentData : Option User :=
            if userRole == "teacher" then getUser db submission.studentId else none
          .ok { submission, assignment, student := studentData, course }

/-- Annotated assignment returned by storage.getAssignmentsForCourse: for
students the three extra fields are filled from the student's submission, for
teachers they are set to `undefined`.  `grade` is doubly optional:
`submission?.grade` is `undefined` without a submission and may be `null`
with one. -/
structure AnnotatedAssignment where
  assignment : Assignment
  submissionStatus : Option String
  submissionId : Option Nat
  grade : Option (Option Int)
deriving DecidableEq, Repr

/-- Comparison on `dueDate` used by `orderBy(assignments.dueDate)`: ascending
on the text column, SQL `NULL`s last (the postgres default for ASC). -/
def dueDateLe (a b : Assignment) : Bool :=
  match a.dueDate, b.dueDate with
  | none, none => true
  | none, some _ => false
  | some _, none => true
  | some x, some y => x ≤ y

/-- JS `submission?.status || 'not-submitted'`: missing row and falsy (empty)
status both fall back to the default. -/
def jsOrStr (v : Option String) (dflt : String) : String :=
  match v with
  | some s => if s == "" then dflt else s
  | none => dflt

/-- storage.getAssignmentsForCourse (storage.ts 385–426): course lookup,
student-enrollment flag (chained `.where` — effectively courseId-only),
teacher-ownership and student-enrollment guards, then the assignment list
ordered by due date; students get per-assignment submission annotations (the
submission lookup chains `.where(assignmentId).where(studentId)`, hence is
effectively a studentId-only filter), teachers get `undefined` annotations. -/
def getAssignmentsForCourse (db : DB) (courseId userId : Nat) (userRole : String) :
    Except String (List AnnotatedAssignment) :=
  match getCourse db courseId with
  | none => .error "Course not found."
  | some course =>
    let isEnrolled : Bool :=
      if userRole == "student" then
        (db.enrollments.filter
          (dzWhere [fun e => e.studentId == userId,
                    fun e => e.courseId == courseId])).length > 0
      else false
    if userRole == "teacher" && course.teacherId != userId then
      .error "Teacher not authorized for this course."
    else if userRole == "student" && !isEnrolled then
      .error "Student not enrolled in this course."
    else
      let courseAssignments :=
        (db.assignments.filter (fun a => a.courseId == courseId)).mergeSort dueDateLe
      if userRole == "student" then
        .ok (courseAssignments.map (fun a =>
          let submission :=
            firstWhere (dzWhere [fun s => s.assignmentId == a.id,
                                 fun s => s.studentId == userId]) db.submissions
          { assignment := a
            submissionStatus := some (jsOrStr (submission.map (·.status)) "not-submitted")
            submissionId := submission.map (·.id)
            grade := submission.map (·.grade) }))
      else
        .ok (courseAssignments.map (fun a =>
          { assignment := a, submissionStatus := none, submissionId := none,
            grade := none }))

/-- The denormalized-counter invariant of the data model: every course's
`enrollmentCount` equals the number of Enrollment rows referencing it. -/
def enrollmentCountInvariant (db : DB) : Prop :=
  ∀ c ∈ db.courses,
    c.enrollmentCount = (db.enrollments.filter (fun e => e.courseId == c.id)).length

instance (db : DB) : Decidable (enrollmentCountInvariant db) := by
  unfold enrollmentCountInvariant; infer_instance

/-- Handler of `POST /api/enrollments` (routes.ts 974–1008): role check, course
lookup, duplicate check over the student's enrollments, then a bare
`storage.createEnrollment({courseId, studentId, progress: 0})`.  No
`enrolledAt` is supplied (the column has no default) and the course's
`enrollmentCount` is never updated on this path.  Errors carry the HTTP
status and message. -/
def apiEnrollments (db : DB) (user : User) (courseId : Nat) :
    Except (Nat × String) Enrollment × DB :=
  if user.role != "student" then
    (.error (403, "Only students can enroll in courses"), db)
  else
    match getCourse db courseId with
    | none => (.error (404, "Course not found"), db)
    | some _ =>
      let existingEnrollments := getEnrollmentsByStudent db user.id
      let alreadyEnrolled := existingEnrollments.any (fun e => e.courseId == courseId)
      if alreadyEnrolled then
        (.error (400, "Already enrolled in this course"), db)
      else
        let newEnrollment : Enrollment :=
          { id := freshId (db.enrollments.map (·.id)), studentId := user.id,
            courseId, enrolledAt := none, progress := 0 }
        (.ok newEnrollment, { db with enrollments := db.enrollments ++ [newEnrollment] })

/-- A user row serialized to a JSON body: its own enumerable fields in
declaration order. -/
def userFields (u : User) : List (String × JsonValue) :=
  [("id", .n u.id), ("username", .s u.username), ("password", .s u.password),
   ("role", .s u.role), ("name", .s u.name),
   ("avatar", match u.avatar with | some a => .s a | none => .nul)]

/-- Semantics of `const \x7b password: _, ...userWithoutPassword \x7d = user`: rest-spread of
every own field except `password`. -/
def userWithoutPassword (u : User) : List (String × JsonValue) :=
  (userFields u).filter (fun kv => kv.1 != "password")

/-- Handler of `POST /api/auth/login` (routes.ts 476–491): zod `min(1)` checks
on both fields, user lookup, password comparison, then the sanitized user.
The session write is outside the data model. -/
def loginHandler (db : DB) (username password : String) :
    Except (Nat × String) (List (String × JsonValue)) :=
  if username.length < 1 || password.length < 1 then
    .error (400, "Invalid request")
  else
    match getUserByUsername db username with
    | none => .error (401, "Invalid credentials")
    | some user =>
      if user.password != password then .error (401, "Invalid credentials")
      else .ok (userWithoutPassword user)

/-- Registration payload after `insertUserSchema.parse` (all user columns
except `id`). -/
structure InsertUser where
  username : String
  password : String
  role : String
  name : String
  avatar : Option String
deriving DecidableEq, Repr

/-- Handler of `POST /api/users/register` (routes.ts 529–545), taking the
already-parsed payload: duplicate-username check, `storage.createUser`, then
the sanitized created user. -/
def registerHandler (db : DB) (userData : InsertUser) :
    Except (Nat × String) (List (String × JsonValue)) × DB :=
  match getUserByUsername db userData.username with
  | some _ => (.error (400, "Username already exists"), db)
  | none =>
    let user : User :=
      { id := freshId (db.users.map (·.id)), username := userData.username,
        password := userData.password, role := userData.role,
        name := userData.name, avatar := userData.avatar }
    (.ok (userWithoutPassword user), { db with users := db.users ++ [user] })

/-- Handler of `GET /api/auth/me` (routes.ts 499–511): session check, user
lookup, sanitized user. -/
def authMeHandler (db : DB) (sessionUserId : Option Nat) :
    Except (Nat × String) (List (String × JsonValue)) :=
  match sessionUserId with
  | none => .error (401, "Not authenticated")
  | some uid =>
    match getUser db uid with
    | none => .error (401, "User not found")
    | some user => .ok (userWithoutPassword user)

/-- Column names of the `users` table. -/
def userColumns : List String :=
  ["id", "username", "password", "role", "name", "avatar"]

/-- Modelled from the spec: `selectUserSchema` is imported by routes.ts from
the shared schema module but no such export appears in the schema file under
src.  A zod object parse validates its input and returns the recognised
keys; it never introduces a key absent from the input, so it is modelled as
a key-filter to the user table's columns. -/
def selectUserSchemaParse (fields : List (String × JsonValue)) :
    List (String × JsonValue) :=
  fields.filter (fun kv => userColumns.contains kv.1)

/-- Handler of `GET /api/users/profile` (routes.ts 548–552): `requireAuth`
resolves the session user, which is sanitized and passed through
`selectUserSchema.parse`. -/
def profileGetHandler (db : DB) (sessionUserId : Option Nat) :
    Except (Nat × String) (List (String × JsonValue)) :=
  match sessionUserId with
  | none => .error (401, "Authentication required")
  | some uid =>
    match getUser db uid with
    | none => .error (401, "User not found")
    | some user => .ok (selectUserSchemaParse (userWithoutPassword user))

/-- storage.updateUser restricted to the profile-update payload
(name/avatar, only the keys present in the parsed body are set). -/
def updateUser (db : DB) (id : Nat) (nameUpd avatarUpd : Option String) :
    Option User × DB :=
  let newUsers := db.users.map (fun u =>
    if u.id == id then
      { u with name := nameUpd.getD u.name,
               avatar := match avatarUpd with | some a => some a | none => u.avatar }
    else u)
  ((newUsers.filter (fun u => u.id == id)).head?, { db with users := newUsers })

/-- Handler of `PUT /api/users/profile` (routes.ts 554–571), taking the
already-parsed optional fields: empty-update check, `storage.updateUser`,
then the sanitized updated user through `selectUserSchema.parse`.  A missing
updated user makes the destructuring throw, caught as a 500. -/
def profilePutHandler (db : DB) (sessionUserId : Option Nat)
    (nameUpd avatarUpd : Option String) :
    Except (Nat × String) (List (String × JsonValue)) × DB :=
  match sessionUserId with
  | none => (.error (401, "Authentication required"), db)
  | some uid =>
    match getUser db uid with
    | none => (.error (401, "User not found"), db)
    | some _user =>
      if nameUpd.isNone && avatarUpd.isNone then
        (.error (400, "No fields to update"), db)
      else
        match updateUser db uid nameUpd avatarUpd with
        | (some updatedUser, db1) =>
          (.ok (selectUserSchemaParse (userWithoutPassword updatedUser)), db1)
        | (none, db1) => (.error (500, "Failed to update profile"), db1)

/-! ## Concrete fixtures used by counterexamples and witnesses -/

/-- Teacher user owning the fixture courses. -/
def exTeacher : User := ⟨10, "teacher1", "pw-t", "teacher", "T", none⟩

/-- Student user who is enrolled in course 1 in the fixtures. -/
def exAlice : User := ⟨2, "alice", "pw-a", "student", "Alice", none⟩

/-- Student user who is enrolled in no course in the fixtures. -/
def exBob : User := ⟨3, "bob", "pw-b", "student", "Bob", none⟩

/-- Active course with one enrollment (count 1). -/
def exCourse1 : Course := ⟨1, "C1", none, 10, "active", 1, none⟩

/-- Active course with no enrollments (count 0). -/
def exCourse1Empty : Course := ⟨1, "C1", none, 10, "active", 0, none⟩

/-- Second active course, no enrollments. -/
def exCourse2 : Course := ⟨2, "C2", none, 10, "active", 0, none⟩

/-- Draft course. -/
def exCourseDraft : Course := ⟨4, "C4", none, 10, "draft", 0, none⟩

/-- Alice's enrollment in course 1. -/
def exEnrollAlice : Enrollment := ⟨1, 2, 1, some "t0", 0⟩

/-- Assignment 1 of course 1 (no due date). -/
def exA1 : Assignment := ⟨1, "A1", none, 1, 10, none, 100, none⟩

/-- Assignment 2 of course 1 (due date "d"). -/
def exA2 : Assignment := ⟨2, "A2", none, 1, 10, some "d", 100, none⟩

/-- Alice's graded submission for assignment 2. -/
def exSubOther : Submission := ⟨7, 2, 2, some "old", some "t0", some 90, some "good", "graded"⟩

/-- Alice's ungraded submission for assignment 1. -/
def exSub1 : Submission := ⟨5, 1, 2, some "w", some "t0", none, none, "submitted"⟩

/-- State for the C1 counterexample: course 1 is active, Alice is enrolled
in it, Bob is not enrolled anywhere. -/
def exDbC1 : DB := ⟨[exTeacher, exAlice, exBob], [exCourse1], [exA1, exA2], [], [exEnrollAlice]⟩

/-- State with an active course and no enrollments at all. -/
def exDbEmptyEnroll : DB := ⟨[exTeacher, exAlice], [exCourse1Empty], [], [], []⟩

/-- State for C3/C4: Alice enrolled in course 1, two assignments, Alice's
graded submission for assignment 2 on file. -/
def exDbC3 : DB := ⟨[exTeacher, exAlice, exBob], [exCourse1], [exA1, exA2], [exSubOther], [exEnrollAlice]⟩

/-- Final state of the C3 counterexample run: Alice submits twice for
assignment 1. -/
def exDbC3Final : DB :=
  (createOrUpdateSubmission "t2"
    (createOrUpdateSubmission "t1" exDbC3 1 2 "v1" none).2 1 2 "v2" none).2

/-- State like exDbC3 but with no submissions on file (C3 witness). -/
def exDbC3W : DB := ⟨[exTeacher, exAlice], [exCourse1], [exA1, exA2], [], [exEnrollAlice]⟩

/-- State for C5: only a draft course. -/
def exDbDraft : DB := ⟨[exTeacher, exAlice], [exCourseDraft], [], [], []⟩

/-- State for C6: Alice's submission for assignment 1 of course 1. -/
def exDbC6 : DB := ⟨[exTeacher, exAlice, exBob], [exCourse1], [exA1], [exSub1], [exEnrollAlice]⟩

/-- State for C7: two active courses, Alice enrolled in course 1. -/
def exDbC7 : DB := ⟨[exTeacher, exAlice, exBob], [exCourse1, exCourse2], [], [], [exEnrollAlice]⟩

/-! ## Helper lemmas -/

theorem dzWhere_single {α : Type} (p : α → Bool) : dzWhere [p] = p := by
  funext r; rfl

theorem dzWhere_pair {α : Type} (p q : α → Bool) : dzWhere [p, q] = q := by
  funext r; rfl

theorem firstWhere_cons {α : Type} (p : α → Bool) (x : α) (t : List α) :
    firstWhere p (x :: t) = if p x then some x else firstWhere p t := by
  simp only [firstWhere, List.filter_cons]
  cases p x <;> simp

theorem firstWhere_prop {α : Type} {p : α → Bool} {l : List α} {x : α}
    (h : firstWhere p l = some x) : p x = true := by
  unfold firstWhere at h
  cases hf : l.filter p with
  | nil => rw [hf] at h; simp at h
  | cons y t =>
    rw [hf] at h
    have hy : y ∈ l.filter p := by rw [hf]; exact List.mem_cons_self _ _
    have hpy := (List.mem_filter.mp hy).2
    simp at h
    exact h ▸ hpy

theorem firstWhere_map {α : Type} (f : α → α) (p : α → Bool)
    (hp : ∀ x, p (f x) = p x) (l : List α) :
    firstWhere p (l.map f) = (firstWhere p l).map f := by
  induction l with
  | nil => rfl
  | cons x t ih =>
    rw [List.map_cons, firstWhere_cons, firstWhere_cons, hp x]
    cases hpx : p x <;> simp [ih]

theorem le_foldl_max (l : List Nat) (a : Nat) : a ≤ l.foldl Nat.max a := by
  induction l generalizing a with
  | nil => simp
  | cons x t ih => exact le_trans (Nat.le_max_left a x) (ih (Nat.max a x))

theorem mem_le_foldl_max {x : Nat} {l : List Nat} (h : x ∈ l) (a : Nat) :
    x ≤ l.foldl Nat.max a := by
  induction l generalizing a with
  | nil => cases h
  | cons y t ih =>
    rcases List.mem_cons.mp h with rfl | h2
    · exact le_trans (Nat.le_max_right a x) (le_foldl_max t (Nat.max a x))
    · exact ih h2 (Nat.max a y)

theorem mem_lt_freshId {x : Nat} {l : List Nat} (h : x ∈ l) : x < freshId l :=
  Nat.lt_succ_of_le (mem_le_foldl_max h 0)

theorem jsOr0_eq (v : Int) : jsOr0 v = v := by
  unfold jsOr0
  split
  · next h => exact (beq_iff_eq.mp h).symm
  · rfl

theorem filter_and_ne_nil {α : Type} {p q : α → Bool} {l : List α}
    (h : l.filter (fun x => p x && q x) ≠ []) : l.filter q ≠ [] := by
  intro hq
  apply h
  rw [List.filter_eq_nil_iff] at hq ⊢
  intro x hx hpq
  exact hq x hx (Bool.and_elim_right hpq)

theorem head?_filter_map {α : Type} (f : α → α) (p : α → Bool)
    (hp : ∀ x, p (f x) = p x) (l : List α) :
    ((l.map f).filter p).head? = ((l.filter p).head?).map f :=
  firstWhere_map f p hp l

theorem map_eq_self_of {α : Type} {f : α → α} {l : List α}
    (h : ∀ x ∈ l, f x = x) : l.map f = l := by
  induction l with
  | nil => rfl
  | cons x t ih =>
    rw [List.map_cons, h x (List.mem_cons_self _ _),
      ih (fun y hy => h y (List.mem_cons_of_mem _ hy))]

/-! ## Claim theorems -/

/-- C5: for every student and every existing course whose status is not
"active", `enrollStudentInCourse` fails with the InvalidState error
"Course is not active and cannot be enrolled in." and leaves the state
unchanged: no Enrollment row is inserted and the course's enrollmentCount
is not modified. -/
theorem c5_enroll_inactive_invalid_state (now : String) (db : DB)
    (studentId courseId : Nat) (course : Course)
    (hc : getCourse db courseId = some course)
    (hs : course.status ≠ "active") :
    enrollStudentInCourse now db studentId courseId =
      (.error "Course is not active and cannot be enrolled in.", db) := by
  unfold getCourse at hc
  simp only [enrollStudentInCourse, dzWhere_single]
  rw [hc]
  simp [hs]

/-- Witness for C5: enrolling Alice into the draft course 4 fails with the
InvalidState error and leaves the state untouched. -/
theorem c5_enroll_inactive_witness :
    enrollStudentInCourse "t1" exDbDraft 2 4 =
      (.error "Course is not active and cannot be enrolled in.", exDbDraft) :=
  c5_enroll_inactive_invalid_state "t1" exDbDraft 2 4 exCourseDraft rfl (by decide)

/-- C2 (code bug): the `POST /api/enrollments` route (routes.ts 974–1008)
inserts an Enrollment row without touching the course's enrollmentCount, so
it does not preserve the invariant that every course's enrollmentCount
equals the number of Enrollment rows referencing it.  Concretely: from a
state satisfying the invariant (course 1 active, count 0, no enrollments),
student Alice's enrollment request succeeds and leaves a state violating
it. -/
theorem c2_route_enrollment_breaks_counter_invariant :
    enrollmentCountInvariant exDbEmptyEnroll ∧
    (apiEnrollments exDbEmptyEnroll exAlice 1).1 = .ok ⟨1, 2, 1, none, 0⟩ ∧
    ¬ enrollmentCountInvariant (apiEnrollments exDbEmptyEnroll exAlice 1).2 :=
  ⟨by decide, rfl, by decide⟩

/-- C7 (code bug): `getAvailableCoursesForStudent` throws for every student
with at least one enrollment — the enrolled-courses branch references the
unimported `and`/`notInArray` helpers — so it cannot return the set of
active non-enrolled courses.  Concretely: Alice (enrolled in course 1 only,
with course 2 active and not enrolled) gets a ReferenceError instead of
[course 2], while enrollment-free Bob gets every active course. -/
theorem c7_available_courses_reference_error :
    exDbC7.enrollments = [exEnrollAlice] ∧ exEnrollAlice.studentId = 2 ∧
    exCourse2.status = "active" ∧
    (exDbC7.enrollments.filter (fun e => e.studentId == 2 && e.courseId == 2)) = [] ∧
    getAvailableCoursesForStudent exDbC7 2 =
      .error "ReferenceError: and is not defined" ∧
    getAvailableCoursesForStudent exDbC7 3 = .ok [exCourse1, exCourse2] :=
  ⟨rfl, rfl, rfl, rfl, rfl, rfl⟩

/-- C9: for every existing course and every userId, `getAssignmentsForCourse`
called with a userRole that is neither "student" nor "teacher" returns the
course's assignment list (due-date ordered, annotations set to undefined)
without any enrollment or ownership check being applied. -/
theorem c9_unknown_role_no_check (db : DB) (courseId userId : Nat) (r : String)
    (course : Course) (hc : getCourse db courseId = some course)
    (hrs : r ≠ "student") (hrt : r ≠ "teacher") :
    getAssignmentsForCourse db courseId userId r =
      .ok (((db.assignments.filter (fun a => a.courseId == courseId)).mergeSort
          dueDateLe).map
        (fun a => { assignment := a, submissionStatus := none,
                    submissionId := none, grade := none })) := by
  have h1 : (r == "student") = false := by
    simp [hrs]
  have h2 : (r == "teacher") = false := by
    simp [hrt]
  simp only [getAssignmentsForCourse]
  rw [hc]
  simp [h1, h2]

/-- Witness for C9: role "admin" on course 1 gets the unannotated, due-date
ordered assignment list with no access check. -/
theorem c9_unknown_role_witness :
    getAssignmentsForCourse exDbC3 1 42 "admin" =
      .ok (((exDbC3.assignments.filter (fun a => a.courseId == 1)).mergeSort
          dueDateLe).map
        (fun a => { assignment := a, submissionStatus := none,
                    submissionId := none, grade := none })) :=
  c9_unknown_role_no_check exDbC3 1 42 "admin" exCourse1 rfl (by decide) (by decide)

/-- C6: for every existing submission (with existing assignment and course),
`getSubmissionDetails` with role "student" and a caller other than the
submission's owner fails with the access-denied error regardless of the
caller's enrollment state; with role "teacher" and a caller other than the
course's teacher it fails with the access-denied error; the owning student
succeeds with no student identity attached, and the owning teacher succeeds
with the student identity attached. -/
theorem c6_submission_details_access_control (db : DB) (submissionId : Nat)
    (sub : Submission)
    (hs : firstWhere (fun x => x.id == submissionId) db.submissions = some sub)
    (a : Assignment) (ha : getAssignment db sub.assignmentId = some a)
    (course : Course) (hc : getCourse db a.courseId = some course)
    (uidS uidT : Nat) (hS : uidS ≠ sub.studentId) (hT : uidT ≠ course.teacherId) :
    getSubmissionDetails db submissionId uidS "student" =
      .error "Access denied. You are not the owner of this submission." ∧
    getSubmissionDetails db submissionId uidT "teacher" =
      .error "Access denied. You are not the teacher of this course." ∧
    getSubmissionDetails db submissionId sub.studentId "student" =
      .ok { submission := sub, assignment := a, student := none,
            course := course } ∧
    getSubmissionDetails db submissionId course.teacherId "teacher" =
      .ok { submission := sub, assignment := a,
            student := getUser db sub.studentId, course := course } := by
  have hS2 : (sub.studentId != uidS) = true := by
    simp [bne_iff_ne]
    exact fun h => hS h.symm
  have hT2 : (course.teacherId != uidT) = true := by
    simp [bne_iff_ne]
    exact fun h => hT h.symm
  refine ⟨?_, ?_, ?_, ?_⟩ <;>
    (simp only [getSubmissionDetails]; rw [hs]; dsimp only; rw [ha]; dsimp only;
     rw [hc]; dsimp only) <;>
    simp [hS2, hT2]

/-- Witness for C6: in the fixture state, Bob cannot view Alice's
submission 5, a stranger teacher id 99 cannot view it, Alice can (without
student identity), and teacher 10 can (with Alice's identity). -/
theorem c6_submission_details_witness :
    getSubmissionDetails exDbC6 5 3 "student" =
      .error "Access denied. You are not the owner of this submission." ∧
    getSubmissionDetails exDbC6 5 99 "teacher" =
      .error "Access denied. You are not the teacher of this course." ∧
    getSubmissionDetails exDbC6 5 exSub1.studentId "student" =
      .ok { submission := exSub1, assignment := exA1, student := none,
            course := exCourse1 } ∧
    getSubmissionDetails exDbC6 5 exCourse1.teacherId "teacher" =
      .ok { submission := exSub1, assignment := exA1,
            student := getUser exDbC6 exSub1.studentId, course := exCourse1 } :=
  c6_submission_details_access_control exDbC6 5 exSub1 rfl exA1 rfl exCourse1 rfl
    3 99 (by decide) (by decide)

/-- C4 counterexample: the enrollment check of `createOrUpdateSubmission`
chains `.where(studentId).where(courseId)` and therefore only requires that
*someone* be enrolled in the assignment's course.  Bob (student 3) holds no
Enrollment row at all, yet his submission for assignment 1 (course 1, where
Alice is enrolled) succeeds with a fresh Submission row instead of failing
with the Forbidden error. -/
theorem c4_unenrolled_submit_succeeds :
    exDbC3.enrollments.filter (fun e => e.studentId == 3) = [] ∧
    getAssignment exDbC3 1 = some exA1 ∧ exA1.courseId = 1 ∧
    (createOrUpdateSubmission "t1" exDbC3 1 3 "hack" none).1 =
      .ok ⟨8, 1, 3, some "hack", some "t1", none, none, "submitted"⟩ ∧
    (createOrUpdateSubmission "t1" exDbC3 1 3 "hack" none).2.submissions.length =
      exDbC3.submissions.length + 1 :=
  ⟨rfl, rfl, rfl, rfl, rfl⟩

/-- C4 amended: when the assignment's course has no Enrollment rows at all
(in particular the calling student holds none), `createOrUpdateSubmission`
fails with the Forbidden error "Student not enrolled in the course for this
assignment." and leaves the state — in particular the submissions table —
unchanged. -/
theorem c4_unenrolled_submit_forbidden (now : String) (db : DB)
    (assignmentId studentId : Nat) (submissionContent : String)
    (submissionIdToUpdate : Option Nat)
    (a : Assignment) (ha : getAssignment db assignmentId = some a)
    (course : Course) (hc : getCourse db a.courseId = some course)
    (hnoenr : db.enrollments.filter (fun e => e.courseId == a.courseId) = []) :
    createOrUpdateSubmission now db assignmentId studentId submissionContent
        submissionIdToUpdate =
      (.error "Student not enrolled in the course for this assignment.", db) := by
  simp only [createOrUpdateSubmission, dzWhere_pair]
  rw [ha]; dsimp only
  rw [hc]; dsimp only
  simp only [firstWhere]
  rw [hnoenr]
  rfl

/-- Witness for C4 amended: Bob submitting to assignment 1 of the
enrollment-free course 1 is rejected with the Forbidden error and the state
is unchanged. -/
theorem c4_unenrolled_submit_witness :
    createOrUpdateSubmission "t1"
        ⟨[exTeacher, exBob], [exCourse1Empty], [exA1], [], []⟩ 1 3 "hack" none =
      (.error "Student not enrolled in the course for this assignment.",
        ⟨[exTeacher, exBob], [exCourse1Empty], [exA1], [], []⟩) :=
  c4_unenrolled_submit_forbidden "t1"
    ⟨[exTeacher, exBob], [exCourse1Empty], [exA1], [], []⟩ 1 3 "hack" none
    exA1 rfl exCourse1Empty rfl rfl

/-- C8: when `createOrUpdateSubmission` takes the update path on an existing
authoritative submission, the resulting state changes only the submissions
table, and there only via `resubmitSet`, which rewrites content, submittedAt
and status of the matched row — every other field, in particular grade,
feedback, assignmentId and studentId, is left unchanged, so a resubmission
after grading keeps the grade and feedback while the status becomes
"resubmitted". -/
theorem c8_resubmit_frame (now : String) (db : DB) (assignmentId studentId : Nat)
    (submissionContent : String)
    (a : Assignment) (ha : getAssignment db assignmentId = some a)
    (course : Course) (hc : getCourse db a.courseId = some course)
    (henr : db.enrollments.filter (fun e => e.courseId == a.courseId) ≠ [])
    (ex : Submission)
    (hex : firstWhere (fun s => s.studentId == studentId) db.submissions = some ex) :
    (createOrUpdateSubmission now db assignmentId studentId submissionContent
        none).2 =
      { db with submissions :=
          (db.submissions.map
            (fun s => if s.id == ex.id then resubmitSet now submissionContent s
                      else s)) } ∧
    (resubmitSet now submissionContent ex).grade = ex.grade ∧
    (resubmitSet now submissionContent ex).feedback = ex.feedback ∧
    (resubmitSet now submissionContent ex).assignmentId = ex.assignmentId ∧
    (resubmitSet now submissionContent ex).studentId = ex.studentId ∧
    (resubmitSet now submissionContent ex).id = ex.id ∧
    (resubmitSet now submissionContent ex).status = "resubmitted" ∧
    (resubmitSet now submissionContent ex).content = some submissionContent ∧
    (resubmitSet now submissionContent ex).submittedAt = some now := by
  refine ⟨?_, rfl, rfl, rfl, rfl, rfl, rfl, rfl, rfl⟩
  simp only [createOrUpdateSubmission, dzWhere_pair]
  rw [ha]; dsimp only
  rw [hc]; dsimp only
  cases hfe : db.enrollments.filter (fun e => e.courseId == a.courseId) with
  | nil => exact absurd hfe henr
  | cons y t =>
    simp only [firstWhere]
    rw [hfe, List.head?_cons]; dsimp only
    rw [show (db.submissions.filter (fun s => s.studentId == studentId)).head? =
      some ex from hex]
    dsimp only
    cases hu : ((db.submissions.map
        (fun s => if (s.id == ex.id) = true then
          resubmitSet now submissionContent s else s)).filter
        (fun s => s.id == ex.id)).head? <;>
      rfl

/-- Witness for C8: Alice resubmitting (the lookup finds her graded
submission 7) updates only content, submittedAt and status of that row;
grade 90 and feedback survive. -/
theorem c8_resubmit_frame_witness :
    (createOrUpdateSubmission "t1" exDbC3 1 2 "v1" none).2 =
      { exDbC3 with submissions :=
          (exDbC3.submissions.map
            (fun s => if s.id == exSubOther.id then resubmitSet "t1" "v1" s
                      else s)) } ∧
    (resubmitSet "t1" "v1" exSubOther).grade = exSubOther.grade ∧
    (resubmitSet "t1" "v1" exSubOther).feedback = exSubOther.feedback ∧
    (resubmitSet "t1" "v1" exSubOther).assignmentId = exSubOther.assignmentId ∧
    (resubmitSet "t1" "v1" exSubOther).studentId = exSubOther.studentId ∧
    (resubmitSet "t1" "v1" exSubOther).id = exSubOther.id ∧
    (resubmitSet "t1" "v1" exSubOther).status = "resubmitted" ∧
    (resubmitSet "t1" "v1" exSubOther).content = some "v1" ∧
    (resubmitSet "t1" "v1" exSubOther).submittedAt = some "t1" :=
  c8_resubmit_frame "t1" exDbC3 1 2 "v1" exA1 rfl exCourse1 rfl (by decide)
    exSubOther rfl

/-- C1 counterexample: the already-enrolled check of `enrollStudentInCourse`
chains `.where(studentId).where(courseId)` and therefore fires whenever
*anyone* is enrolled in the course.  Course 1 exists with status "active"
and Bob (student 3) is not enrolled in it, yet both of his enroll calls
fail with the Conflict error: no success, no new Enrollment row, no counter
change — not one success and one Conflict as claimed. -/
theorem c1_enroll_conflict_without_prior_enrollment :
    getCourse exDbC1 1 = some exCourse1 ∧ exCourse1.status = "active" ∧
    exDbC1.enrollments.filter (fun e => e.studentId == 3 && e.courseId == 1) = [] ∧
    (enrollStudentInCourse "t1" exDbC1 3 1).1 =
      .error "Student is already enrolled in this course." ∧
    (enrollStudentInCourse "t2" (enrollStudentInCourse "t1" exDbC1 3 1).2 3 1).1 =
      .error "Student is already enrolled in this course." ∧
    (enrollStudentInCourse "t2" (enrollStudentInCourse "t1" exDbC1 3 1).2 3 1).2 =
      exDbC1 :=
  ⟨rfl, rfl, rfl, rfl, rfl, rfl⟩

/-- C1 amended: for every (student, course) pair where the course exists
with status "active" and — strengthening the claimed precondition as the
counterexample forces — no Enrollment row references the course at all,
calling enroll twice in sequence yields exactly one success and one
Conflict error "Student is already enrolled in this course."; after the
two calls exactly one new Enrollment row exists for the pair and the
course's enrollmentCount has increased by exactly 1. -/
theorem c1_enroll_twice_one_success_one_conflict (now₁ now₂ : String) (db : DB)
    (studentId courseId : Nat) (course : Course)
    (hc : getCourse db courseId = some course)
    (hact : course.status = "active")
    (hnone : db.enrollments.filter (fun e => e.courseId == courseId) = []) :
    (enrollStudentInCourse now₁ db studentId courseId).1 =
      .ok ⟨freshId (db.enrollments.map (fun e => e.id)), studentId, courseId,
        some now₁, 0⟩ ∧
    (enrollStudentInCourse now₂
        (enrollStudentInCourse now₁ db studentId courseId).2 studentId
        courseId).1 =
      .error "Student is already enrolled in this course." ∧
    ((enrollStudentInCourse now₂
        (enrollStudentInCourse now₁ db studentId courseId).2 studentId
        courseId).2.enrollments.filter
      (fun e => e.studentId == studentId && e.courseId == courseId)).length =
      (db.enrollments.filter
        (fun e => e.studentId == studentId && e.courseId == courseId)).length
        + 1 ∧
    getCourse (enrollStudentInCourse now₂
        (enrollStudentInCourse now₁ db studentId courseId).2 studentId
        courseId).2 courseId =
      some { course with enrollmentCount := course.enrollmentCount + 1 } := by
  have hcfw : firstWhere (fun c => c.id == courseId) db.courses = some course := hc
  have hcfw2 : (db.courses.filter (fun c => c.id == courseId)).head? = some course :=
    hcfw
  have hpcourse : (course.id == courseId) = true := by
    simpa using firstWhere_prop hcfw
  have hpres : ∀ x : Course,
      ((if (x.id == courseId) = true then
          { x with enrollmentCount := jsOr0 course.enrollmentCount + 1 }
        else x).id == courseId) = (x.id == courseId) := by
    intro x
    by_cases hx : (x.id == courseId) = true <;> simp [hx]
  have hmap := head?_filter_map
    (fun x => if (x.id == courseId) = true then
      { x with enrollmentCount := jsOr0 course.enrollmentCount + 1 } else x)
    (fun c => c.id == courseId) hpres db.courses
  have h1 : enrollStudentInCourse now₁ db studentId courseId =
      (.ok ⟨freshId (db.enrollments.map (fun e => e.id)), studentId, courseId,
        some now₁, 0⟩,
       { db with
          courses := (db.courses.map
            (fun x => if (x.id == courseId) = true then
              { x with enrollmentCount := jsOr0 course.enrollmentCount + 1 }
            else x)),
          enrollments := (db.enrollments ++
            [⟨freshId (db.enrollments.map (fun e => e.id)), studentId, courseId,
              some now₁, 0⟩]) }) := by
    simp only [enrollStudentInCourse, dzWhere_single, dzWhere_pair, firstWhere]
    rw [hcfw2]
    dsimp only
    rw [if_neg (show ¬((course.status != "active") = true) by simp [hact])]
    rw [hnone, List.head?_nil]
    dsimp only
    rw [hmap, hcfw2, Option.map_some']
  have h2 : enrollStudentInCourse now₂
      ({ db with
          courses := (db.courses.map
            (fun x => if (x.id == courseId) = true then
              { x with enrollmentCount := jsOr0 course.enrollmentCount + 1 }
            else x)),
          enrollments := (db.enrollments ++
            [⟨freshId (db.enrollments.map (fun e => e.id)), studentId, courseId,
              some now₁, 0⟩]) } : DB) studentId courseId =
      (.error "Student is already enrolled in this course.",
       { db with
          courses := (db.courses.map
            (fun x => if (x.id == courseId) = true then
              { x with enrollmentCount := jsOr0 course.enrollmentCount + 1 }
            else x)),
          enrollments := (db.enrollments ++
            [⟨freshId (db.enrollments.map (fun e => e.id)), studentId, courseId,
              some now₁, 0⟩]) }) := by
    simp only [enrollStudentInCourse, dzWhere_single, dzWhere_pair, firstWhere]
    rw [hmap, hcfw2, Option.map_some']
    dsimp only
    rw [if_pos hpcourse]
    dsimp only
    rw [if_neg (show ¬((course.status != "active") = true) by simp [hact])]
    rw [List.filter_append, hnone]
    simp
  rw [h1]
  dsimp only
  rw [h2]
  refine ⟨rfl, rfl, ?_, ?_⟩
  · dsimp only
    rw [List.filter_append, List.length_append]
    simp
  · simp only [getCourse, firstWhere]
    rw [hmap, hcfw2, Option.map_some']
    simp [hpcourse, jsOr0_eq]

/-- Witness for C1 amended: in a state with an active course 1 and no
enrollments, Alice's two enroll calls give one success and one Conflict,
one new row for the pair, and a counter increase of exactly 1. -/
theorem c1_enroll_twice_witness :
    (enrollStudentInCourse "t1" exDbEmptyEnroll 2 1).1 =
      .ok ⟨freshId (exDbEmptyEnroll.enrollments.map (fun e => e.id)), 2, 1,
        some "t1", 0⟩ ∧
    (enrollStudentInCourse "t2"
        (enrollStudentInCourse "t1" exDbEmptyEnroll 2 1).2 2 1).1 =
      .error "Student is already enrolled in this course." ∧
    ((enrollStudentInCourse "t2"
        (enrollStudentInCourse "t1" exDbEmptyEnroll 2 1).2 2 1).2.enrollments.filter
      (fun e => e.studentId == 2 && e.courseId == 1)).length =
      (exDbEmptyEnroll.enrollments.filter
        (fun e => e.studentId == 2 && e.courseId == 1)).length + 1 ∧
    getCourse (enrollStudentInCourse "t2"
        (enrollStudentInCourse "t1" exDbEmptyEnroll 2 1).2 2 1).2 1 =
      some { exCourse1Empty with
        enrollmentCount := exCourse1Empty.enrollmentCount + 1 } :=
  c1_enroll_twice_one_success_one_conflict "t1" "t2" exDbEmptyEnroll 2 1
    exCourse1Empty rfl rfl rfl

/-- C3 counterexample: the authoritative-row lookup of
`createOrUpdateSubmission` chains `.where(assignmentId).where(studentId)`
and is therefore a studentId-only filter.  Alice is enrolled in course 1
and assignment 1 exists, but she already holds a submission for assignment
2; submitting twice for assignment 1 with contents "v1" then "v2" updates
that assignment-2 row both times, so afterwards *no* Submission row exists
for the (assignment 1, Alice) pair — not a single row with content "v2" as
claimed — and her graded assignment-2 submission has been overwritten. -/
theorem c3_submit_twice_clobbers_other_assignment :
    getAssignment exDbC3 1 = some exA1 ∧
    exDbC3.enrollments.filter (fun e => e.studentId == 2 && e.courseId == 1) =
      [exEnrollAlice] ∧
    exDbC3Final.submissions.filter
      (fun s => s.assignmentId == 1 && s.studentId == 2) = [] ∧
    exDbC3Final.submissions =
      [⟨7, 2, 2, some "v2", some "t2", some 90, some "good", "resubmitted"⟩] :=
  ⟨rfl, rfl, rfl, rfl⟩

/-- C3 amended: for an enrolled student and existing assignment, and —
strengthening the claimed precondition as the counterexample forces —
provided the student holds no prior Submission row for any assignment,
calling submit twice for the pair with contents c₁ then c₂ leaves a single
Submission row for the pair whose content is c₂ and whose status is
"resubmitted"; the second call updates the first call's row rather than
creating a new one (the table grows by exactly one row over both calls). -/
theorem c3_submit_twice_single_row (now₁ now₂ : String) (db : DB)
    (assignmentId studentId : Nat) (c₁ c₂ : String)
    (a : Assignment) (ha : getAssignment db assignmentId = some a)
    (course : Course) (hc : getCourse db a.courseId = some course)
    (henr : db.enrollments.filter
      (fun e => e.studentId == studentId && e.courseId == a.courseId) ≠ [])
    (hnosub : db.submissions.filter (fun s => s.studentId == studentId) = []) :
    (createOrUpdateSubmission now₁ db assignmentId studentId c₁ none).1 =
      .ok ⟨freshId (db.submissions.map (fun s => s.id)), assignmentId, studentId,
        some c₁, some now₁, none, none, "submitted"⟩ ∧
    (createOrUpdateSubmission now₂
        (createOrUpdateSubmission now₁ db assignmentId studentId c₁ none).2
        assignmentId studentId c₂ none).1 =
      .ok (resubmitSet now₂ c₂
        ⟨freshId (db.submissions.map (fun s => s.id)), assignmentId, studentId,
          some c₁, some now₁, none, none, "submitted"⟩) ∧
    (createOrUpdateSubmission now₂
        (createOrUpdateSubmission now₁ db assignmentId studentId c₁ none).2
        assignmentId studentId c₂ none).2.submissions.filter
      (fun s => s.assignmentId == assignmentId && s.studentId == studentId) =
      [resubmitSet now₂ c₂
        ⟨freshId (db.submissions.map (fun s => s.id)), assignmentId, studentId,
          some c₁, some now₁, none, none, "submitted"⟩] ∧
    (createOrUpdateSubmission now₂
        (createOrUpdateSubmission now₁ db assignmentId studentId c₁ none).2
        assignmentId studentId c₂ none).2.submissions.length =
      db.submissions.length + 1 := by
  have henr2 : db.enrollments.filter (fun e => e.courseId == a.courseId) ≠ [] :=
    filter_and_ne_nil henr
  have hnosub2 : ∀ r ∈ db.submissions, (r.studentId == studentId) = false := by
    intro r hr
    have := List.filter_eq_nil_iff.mp hnosub r hr
    simpa using this
  have hfresh : ∀ r ∈ db.submissions,
      (r.id == freshId (db.submissions.map (fun s => s.id))) = false := by
    intro r hr
    have hlt : r.id < freshId (db.submissions.map (fun s => s.id)) :=
      mem_lt_freshId (List.mem_map_of_mem (fun s => s.id) hr)
    exact beq_eq_false_iff_ne.mpr (Nat.ne_of_lt hlt)
  cases heq : db.enrollments.filter (fun e => e.courseId == a.courseId) with
  | nil => exact absurd heq henr2
  | cons y t =>
  have h1 : createOrUpdateSubmission now₁ db assignmentId studentId c₁ none =
      (.ok ⟨freshId (db.submissions.map (fun s => s.id)), assignmentId, studentId,
        some c₁, some now₁, none, none, "submitted"⟩,
       { db with submissions := (db.submissions ++
          [⟨freshId (db.submissions.map (fun s => s.id)), assignmentId, studentId,
            some c₁, some now₁, none, none, "submitted"⟩]) }) := by
    simp only [createOrUpdateSubmission, dzWhere_pair]
    rw [ha]; dsimp only
    rw [hc]; dsimp only
    simp only [firstWhere]
    rw [heq, List.head?_cons]; dsimp only
    rw [hnosub, List.head?_nil]
  have hmapS : (db.submissions ++
      [(⟨freshId (db.submissions.map (fun s => s.id)), assignmentId, studentId,
        some c₁, some now₁, none, none, "submitted"⟩ : Submission)]).map
      (fun s => if (s.id ==
          (⟨freshId (db.submissions.map (fun s => s.id)), assignmentId, studentId,
            some c₁, some now₁, none, none, "submitted"⟩ : Submission).id) = true
        then resubmitSet now₂ c₂ s else s) =
      db.submissions ++ [resubmitSet now₂ c₂
        ⟨freshId (db.submissions.map (fun s => s.id)), assignmentId, studentId,
          some c₁, some now₁, none, none, "submitted"⟩] := by
    rw [List.map_append]
    rw [map_eq_self_of (fun r hr => by rw [if_neg]; simp [hfresh r hr])]
    simp
  have h2 : createOrUpdateSubmission now₂
      ({ db with submissions := (db.submissions ++
          [⟨freshId (db.submissions.map (fun s => s.id)), assignmentId, studentId,
            some c₁, some now₁, none, none, "submitted"⟩]) } : DB)
      assignmentId studentId c₂ none =
      (.ok (resubmitSet now₂ c₂
        ⟨freshId (db.submissions.map (fun s => s.id)), assignmentId, studentId,
          some c₁, some now₁, none, none, "submitted"⟩),
       { db with submissions := (db.submissions ++
          [resubmitSet now₂ c₂
            ⟨freshId (db.submissions.map (fun s => s.id)), assignmentId, studentId,
              some c₁, some now₁, none, none, "submitted"⟩]) }) := by
    simp only [createOrUpdateSubmission, dzWhere_pair]
    rw [show getAssignment ({ db with submissions := (db.submissions ++
        [⟨freshId (db.submissions.map (fun s => s.id)), assignmentId, studentId,
          some c₁, some now₁, none, none, "submitted"⟩]) } : DB) assignmentId =
      some a from ha]
    dsimp only
    rw [show getCourse ({ db with submissions := (db.submissions ++
        [⟨freshId (db.submissions.map (fun s => s.id)), assignmentId, studentId,
          some c₁, some now₁, none, none, "submitted"⟩]) } : DB) a.courseId =
      some course from hc]
    dsimp only
    simp only [firstWhere]
    rw [heq, List.head?_cons]; dsimp only
    rw [List.filter_append, hnosub]
    rw [show List.filter (fun s => s.studentId == studentId)
        [(⟨freshId (db.submissions.map (fun s => s.id)), assignmentId, studentId,
          some c₁, some now₁, none, none, "submitted"⟩ : Submission)] =
      [⟨freshId (db.submissions.map (fun s => s.id)), assignmentId, studentId,
        some c₁, some now₁, none, none, "submitted"⟩] by simp]
    rw [List.nil_append, List.head?_cons]
    dsimp only
    rw [hmapS]
    rw [List.filter_append]
    rw [List.filter_eq_nil_iff.mpr
      (fun r hr => by simp only [Bool.not_eq_true]; exact hfresh r hr)]
    rw [show List.filter (fun s => (s.id ==
        (⟨freshId (db.submissions.map (fun s => s.id)), assignmentId, studentId,
          some c₁, some now₁, none, none, "submitted"⟩ : Submission).id))
        [resubmitSet now₂ c₂
          ⟨freshId (db.submissions.map (fun s => s.id)), assignmentId, studentId,
            some c₁, some now₁, none, none, "submitted"⟩] =
      [resubmitSet now₂ c₂
        ⟨freshId (db.submissions.map (fun s => s.id)), assignmentId, studentId,
          some c₁, some now₁, none, none, "submitted"⟩] by simp [resubmitSet]]
    rw [List.nil_append, List.head?_cons]
  rw [h1]
  dsimp only
  rw [h2]
  refine ⟨rfl, rfl, ?_, ?_⟩
  · dsimp only
    rw [List.filter_append]
    rw [List.filter_eq_nil_iff.mpr (fun r hr => ?_)]
    · simp [resubmitSet]
    · simp only [Bool.not_eq_true]
      rw [Bool.and_eq_false_iff]
      exact Or.inr (hnosub2 r hr)
  · dsimp only
    simp

/-- Witness for C3 amended: Alice (enrolled, no prior submissions) submits
twice for assignment 1; one row for the pair remains, content "v2",
status "resubmitted". -/
theorem c3_submit_twice_witness :
    (createOrUpdateSubmission "t1" exDbC3W 1 2 "v1" none).1 =
      .ok ⟨freshId (exDbC3W.submissions.map (fun s => s.id)), 1, 2,
        some "v1", some "t1", none, none, "submitted"⟩ ∧
    (createOrUpdateSubmission "t2"
        (createOrUpdateSubmission "t1" exDbC3W 1 2 "v1" none).2 1 2 "v2" none).1 =
      .ok (resubmitSet "t2" "v2"
        ⟨freshId (exDbC3W.submissions.map (fun s => s.id)), 1, 2,
          some "v1", some "t1", none, none, "submitted"⟩) ∧
    (createOrUpdateSubmission "t2"
        (createOrUpdateSubmission "t1" exDbC3W 1 2 "v1" none).2 1 2 "v2"
        none).2.submissions.filter
      (fun s => s.assignmentId == 1 && s.studentId == 2) =
      [resubmitSet "t2" "v2"
        ⟨freshId (exDbC3W.submissions.map (fun s => s.id)), 1, 2,
          some "v1", some "t1", none, none, "submitted"⟩] ∧
    (createOrUpdateSubmission "t2"
        (createOrUpdateSubmission "t1" exDbC3W 1 2 "v1" none).2 1 2 "v2"
        none).2.submissions.length =
      exDbC3W.submissions.length + 1 :=
  c3_submit_twice_single_row "t1" "t2" exDbC3W 1 2 "v1" "v2" exA1 rfl
    exCourse1 rfl (by decide) rfl

/-- Keys of a sanitized user record: every own field except password. -/
theorem sanitized_keys (u : User) :
    (userWithoutPassword u).map Prod.fst =
      ["id", "username", "role", "name", "avatar"] := rfl

/-- Keys survive the profile response's schema parse unchanged. -/
theorem sanitized_parse_keys (u : User) :
    (selectUserSchemaParse (userWithoutPassword u)).map Prod.fst =
      ["id", "username", "role", "name", "avatar"] := rfl

/-- C10: every successful response of the login, registration, current-user
and profile (read and update) endpoints carries no "password" field: each
handler strips the stored password from the user record by rest-spread
before responding. -/
theorem c10_no_password_in_responses (db : DB) (un pw : String) (ud : InsertUser)
    (sid₁ sid₂ sid₃ : Option Nat) (nameUpd avatarUpd : Option String)
    (fs₁ fs₂ fs₃ fs₄ fs₅ : List (String × JsonValue)) :
    (loginHandler db un pw = .ok fs₁ → "password" ∉ fs₁.map Prod.fst) ∧
    ((registerHandler db ud).1 = .ok fs₂ → "password" ∉ fs₂.map Prod.fst) ∧
    (authMeHandler db sid₁ = .ok fs₃ → "password" ∉ fs₃.map Prod.fst) ∧
    (profileGetHandler db sid₂ = .ok fs₄ → "password" ∉ fs₄.map Prod.fst) ∧
    ((profilePutHandler db sid₃ nameUpd avatarUpd).1 = .ok fs₅ →
      "password" ∉ fs₅.map Prod.fst) := by
  refine ⟨?_, ?_, ?_, ?_, ?_⟩
  · intro h
    unfold loginHandler at h
    split at h
    · simp at h
    · cases hu : getUserByUsername db un with
      | none => rw [hu] at h; simp at h
      | some user =>
        rw [hu] at h
        dsimp only at h
        split at h
        · simp at h
        · simp at h
          subst h
          rw [sanitized_keys]
          decide
  · intro h
    unfold registerHandler at h
    cases hu : getUserByUsername db ud.username with
    | some u => rw [hu] at h; simp at h
    | none =>
      rw [hu] at h
      simp at h
      subst h
      rw [sanitized_keys]
      decide
  · intro h
    unfold authMeHandler at h
    cases sid₁ with
    | none => simp at h
    | some uid =>
      dsimp only at h
      cases hu : getUser db uid with
      | none => rw [hu] at h; simp at h
      | some user =>
        rw [hu] at h
        simp at h
        subst h
        rw [sanitized_keys]
        decide
  · intro h
    unfold profileGetHandler at h
    cases sid₂ with
    | none => simp at h
    | some uid =>
      dsimp only at h
      cases hu : getUser db uid with
      | none => rw [hu] at h; simp at h
      | some user =>
        rw [hu] at h
        simp at h
        subst h
        rw [sanitized_parse_keys]
        decide
  · intro h
    unfold profilePutHandler at h
    cases sid₃ with
    | none => simp at h
    | some uid =>
      dsimp only at h
      cases hu : getUser db uid with
      | none => rw [hu] at h; simp at h
      | some user =>
        rw [hu] at h
        dsimp only at h
        split at h
        · simp at h
        · cases hup : updateUser db uid nameUpd avatarUpd with
          | mk res db1 =>
            rw [hup] at h
            cases res with
            | none => simp at h
            | some updatedUser =>
              simp at h
              subst h
              rw [sanitized_parse_keys]
              decide

/-- Witness for C10: Alice's successful login response and its key set,
which excludes "password". -/
theorem c10_no_password_witness :
    loginHandler exDbC7 "alice" "pw-a" = .ok (userWithoutPassword exAlice) ∧
    "password" ∉ (userWithoutPassword exAlice).map Prod.fst :=
  ⟨rfl,
    (c10_no_password_in_responses exDbC7 "alice" "pw-a"
      ⟨"c", "p", "student", "C", none⟩ none none none none none
      (userWithoutPassword exAlice) [] [] [] []).1 rfl⟩

end EduFlow
